import Mathlib

/-!
Shallow embedding of `SaveConverter.py` (palworld save conversion CLI).

The script's own logic is: argument handling and mode resolution (`main`),
default output-path derivation, an overwrite guard with an interactive
yes/no prompt (`confirm_prompt`), a save-variant classification picking the
one-byte container discriminator, and the two conversion pipelines
`convert_sav_to_json` and `convert_json_to_sav` (plus the unused
`convert_obj_to_sav`).  The delegated collaborators (`decompress_sav_to_gvas`,
`GvasFile.read/load/write/dump`, `compress_gvas_to_sav`, `json.load/dump`)
live outside this repository; they are modelled as an explicit environment
of (possibly failing) functions.

The process state is a filesystem (association list of paths), the stream of
replies available on standard input, a count of prompts issued, and a log of
the messages the script prints.  `exit(1)` and an uncaught exception are
modelled as terminal outcomes.
-/

namespace SaveConverter

/-- ASCII case folding of one character, modelling Python `str.casefold`
on the ASCII replies the prompt deals with. -/
def foldChar (c : Char) : Char :=
  if 'A' ≤ c ∧ c ≤ 'Z' then Char.ofNat (c.toNat + 32) else c

/-- Model of Python `str.casefold` (ASCII fragment). -/
def pyCasefold (s : String) : String :=
  ⟨s.toList.map foldChar⟩

/-- Does `pat` occur as a contiguous substring of `s`?  Models Python's
`pat in s` on strings, at the level of character lists. -/
def listContains (s pat : List Char) : Bool :=
  match s with
  | [] => pat.isEmpty
  | c :: cs => pat.isPrefixOf (c :: cs) || listContains cs pat

/-- Python `sub in s` for strings. -/
def pyIn (sub s : String) : Bool :=
  listContains s.toList sub.toList

/-- Python `s.endswith(suffix)`. -/
def pyEndsWith (s suffix : String) : Bool :=
  suffix.toList.isSuffixOf s.toList

/-- The pattern `".json"` as a character list. -/
def jsonPat : List Char := ['.', 'j', 's', 'o', 'n']

/-- Python `s.replace(".json", "")` on character lists: removes every
non-overlapping occurrence of `".json"`, scanning left to right. -/
def pyRemoveJsonList : List Char → List Char
  | '.' :: 'j' :: 's' :: 'o' :: 'n' :: rest => pyRemoveJsonList rest
  | c :: cs => c :: pyRemoveJsonList cs
  | [] => []

/-- Python `filename.replace(".json", "")` (line 63 of the source). -/
def pyRemoveJson (s : String) : String :=
  ⟨pyRemoveJsonList s.toList⟩

/-- File contents: binary files hold raw bytes, text files hold a string. -/
inductive Data where
  | bin (bytes : List Nat)
  | txt (text : String)
deriving DecidableEq, Repr

/-- A directory entry: a regular file with contents, or a directory
(present so that `os.path.exists` and `os.path.isfile` can differ). -/
inductive Entry where
  | file (d : Data)
  | dir
deriving DecidableEq, Repr

/-- The filesystem: an association list from paths to entries; the first
binding for a path is the current one. -/
abbrev FS := List (String × Entry)

/-- Model of `os.path.exists`. -/
def pathExists (fs : FS) (p : String) : Bool :=
  (fs.lookup p).isSome

/-- Model of `os.path.isfile`. -/
def pathIsFile (fs : FS) (p : String) : Bool :=
  match fs.lookup p with
  | some (Entry.file _) => true
  | _ => false

/-- Reading a file's contents (`open` + `read`); `none` when the path is
missing or a directory, which the script surfaces as an exception. -/
def readFile (fs : FS) (p : String) : Option Data :=
  match fs.lookup p with
  | some (Entry.file d) => some d
  | _ => none

/-- Stand-in byte encoding of a string, for reading a text file in
binary mode. -/
def strBytes (s : String) : List Nat :=
  s.toList.map Char.toNat

/-- The raw bytes an `open(..., "rb")` read yields for an entry's data. -/
def dataBytes : Data → List Nat
  | Data.bin b => b
  | Data.txt s => strBytes s

/-- Writing (creating or truncating) a file at `p`. -/
def writeFile (fs : FS) (p : String) (d : Data) : FS :=
  (p, Entry.file d) :: fs

/-- The header of a parsed GVAS document; the script reads only
`save_game_class_name` from it. -/
structure GvasHeader where
  save_game_class_name : String
deriving DecidableEq, Repr

/-- An in-memory GVAS document: the header plus opaque content. -/
structure GvasFile where
  header : GvasHeader
  content : Nat
deriving DecidableEq, Repr

/-- The delegated collaborators, as an environment of functions.
`decompress` models `decompress_sav_to_gvas` (raw payload and container
metadata; the script discards the metadata), `gvasRead` models
`GvasFile.read`, `gvasLoad` models `GvasFile.load`, `gvasWrite` models
`gvas_file.write(PALWORLD_CUSTOM_PROPERTIES)`, `compress` models
`compress_gvas_to_sav(raw, save_type)`, `gvasDump` models
`gvas_file.dump()`, `jsonDumpText` models `json.dump` with the chosen
indentation (`none` for minified, tab otherwise), and `jsonLoad` models
decoding plus `json.load`.  `Option` results mark the calls that can
raise. -/
structure Env where
  decompress : List Nat → Option (Nat × Nat)
  gvasRead : Nat → Option GvasFile
  gvasDump : GvasFile → Nat
  jsonDumpText : Nat → Bool → String
  jsonLoad : Data → Option Nat
  gvasLoad : Nat → Option GvasFile
  gvasWrite : GvasFile → Option Nat
  compress : Nat → Nat → List Nat

/-- The messages the script prints, in order. -/
inductive Msg where
  | usageError
  | notExist (p : String)
  | notFile (p : String)
  | convertToJsonStart (filename output_path : String)
  | convertToSavStart (filename output_path : String)
  | overwriteWarn (p : String)
  | decompressing
  | loadingGvas
  | loadingJson (filename : String)
  | compressing
  | writingJson (p : String)
  | writingSav (p : String)
deriving DecidableEq, Repr

/-- How a run can end before `main` returns: `exitc n` models `exit(n)`,
`exn` an uncaught exception (CPython then exits with status 1), `blocked`
a prompt loop that never receives a valid reply. -/
inductive Term where
  | exitc (n : Nat)
  | exn
  | blocked
deriving DecidableEq, Repr

/-- Process state threaded through the run: the filesystem, the replies
still available on standard input, the number of prompts issued so far,
and the printed log. -/
structure St where
  fs : FS
  replies : List String
  prompts : Nat
  log : List Msg
deriving DecidableEq, Repr

/-- The parsed command line (`args`).  `output = some ""` models an
explicit empty `--output`, which the script's `if not args.output` treats
like no override. -/
structure ConversionRequest where
  filename : String
  to_json : Bool
  from_json : Bool
  output : Option String
  force : Bool
  minify_json : Bool
deriving DecidableEq, Repr

/-- The exit status of a finished run: `main` returning normally is exit
code 0, `exit(n)` is `n`, an uncaught exception is 1, and a blocked
prompt never exits. -/
def processExit : Option Term → Option Nat
  | none => some 0
  | some (Term.exitc n) => some n
  | some Term.exn => some 1
  | some Term.blocked => none

/-- Transcription of `confirm_prompt` (lines 147-151): keep reading and case-folding
replies until one is `"y"` or `"n"`; returns the decision, the unread
replies, and the number of prompts issued, or `none` when the reply
stream is exhausted without a valid reply. -/
def confirm_prompt : List String → Option (Bool × List String × Nat)
  | [] => none
  | r :: rest =>
    let c := pyCasefold r
    if c = "y" then some (true, rest, 1)
    else if c = "n" then some (false, rest, 1)
    else
      match confirm_prompt rest with
      | none => none
      | some (b, rem, k) => some (b, rem, k + 1)

/-- The overwrite guard, as inlined at the top of each conversion
function (lines 103-107, 122-126, 79-83): warn when the destination
exists, and unless `force` is set ask for confirmation, exiting with
code 1 on "n". -/
def overwriteGuard (output_path : String) (force : Bool) (st : St) :
    St × Option Term :=
  if pathExists st.fs output_path then
    let st1 : St := { st with log := st.log ++ [Msg.overwriteWarn output_path] }
    if force then (st1, none)
    else
      match confirm_prompt st1.replies with
      | none =>
        ({ st1 with replies := [],
                    prompts := st1.prompts + st1.replies.length + 1 },
         some Term.blocked)
      | some (b, rem, k) =>
        let st2 : St := { st1 with replies := rem, prompts := st1.prompts + k }
        if b then (st2, none) else (st2, some (Term.exitc 1))
  else (st, none)

/-- The save-variant test of lines 86-92 and 132-138: save type `0x32`
when the class name contains either full-world substring, else `0x31`. -/
def saveTypeOf (class_name : String) : Nat :=
  if pyIn "Pal.PalWorldSaveGame" class_name
      || pyIn "Pal.PalLocalWorldSaveGame" class_name then
    0x32
  else
    0x31

/-- Transcription of `convert_sav_to_json` (lines 101-117). -/
def convert_sav_to_json (env : Env) (filename output_path : String)
    (force minify : Bool) (st : St) : St × Option Term :=
  let st0 : St :=
    { st with log := st.log ++ [Msg.convertToJsonStart filename output_path] }
  match overwriteGuard output_path force st0 with
  | (st1, some t) => (st1, some t)
  | (st1, none) =>
    let st2 : St := { st1 with log := st1.log ++ [Msg.decompressing] }
    match readFile st2.fs filename with
    | none => (st2, some Term.exn)
    | some d =>
      match env.decompress (dataBytes d) with
      | none => (st2, some Term.exn)
      | some (raw_gvas, _) =>
        let st3 : St := { st2 with log := st2.log ++ [Msg.loadingGvas] }
        match env.gvasRead raw_gvas with
        | none => (st3, some Term.exn)
        | some gvas_file =>
          let st4 : St :=
            { st3 with log := st3.log ++ [Msg.writingJson output_path] }
          ({ st4 with
              fs := writeFile st4.fs output_path
                (Data.txt (env.jsonDumpText (env.gvasDump gvas_file) minify)) },
           none)

/-- Transcription of `convert_json_to_sav` (lines 120-144). -/
def convert_json_to_sav (env : Env) (filename output_path : String)
    (force : Bool) (st : St) : St × Option Term :=
  let st0 : St :=
    { st with log := st.log ++ [Msg.convertToSavStart filename output_path] }
  match overwriteGuard output_path force st0 with
  | (st1, some t) => (st1, some t)
  | (st1, none) =>
    let st2 : St := { st1 with log := st1.log ++ [Msg.loadingJson filename] }
    match readFile st2.fs filename with
    | none => (st2, some Term.exn)
    | some d =>
      match env.jsonLoad d with
      | none => (st2, some Term.exn)
      | some data =>
        match env.gvasLoad data with
        | none => (st2, some Term.exn)
        | some gvas_file =>
          let st3 : St := { st2 with log := st2.log ++ [Msg.compressing] }
          let save_type := saveTypeOf gvas_file.header.save_game_class_name
          match env.gvasWrite gvas_file with
          | none => (st3, some Term.exn)
          | some raw =>
            let sav_file := env.compress raw save_type
            let st4 : St :=
              { st3 with log := st3.log ++ [Msg.writingSav output_path] }
            ({ st4 with
                fs := writeFile st4.fs output_path (Data.bin sav_file) },
             none)

/-- Transcription of `convert_obj_to_sav` (lines 78-98; not reachable from `main`). -/
def convert_obj_to_sav (env : Env) (obj : Nat) (output_path : String)
    (force : Bool) (st : St) : St × Option Term :=
  match overwriteGuard output_path force st with
  | (st1, some t) => (st1, some t)
  | (st1, none) =>
    match env.gvasLoad obj with
    | none => (st1, some Term.exn)
    | some gvas_file =>
      let st2 : St := { st1 with log := st1.log ++ [Msg.compressing] }
      let save_type := saveTypeOf gvas_file.header.save_game_class_name
      match env.gvasWrite gvas_file with
      | none => (st2, some Term.exn)
      | some raw =>
        let sav_file := env.compress raw save_type
        let st3 : St :=
          { st2 with log := st2.log ++ [Msg.writingSav output_path] }
        ({ st3 with fs := writeFile st3.fs output_path (Data.bin sav_file) },
         none)

/-- Transcription of `if not args.output` (lines 55-58, 62-65): the default path is used
when no `--output` was given or it was the empty string; otherwise the
override is used verbatim. -/
def resolveOutput (dflt : String) : Option String → String
  | none => dflt
  | some o => if o = "" then dflt else o

/-- Default destination in the binary-to-text direction (line 56):
append `".json"` to the full input name. -/
def deriveToJsonPath (filename : String) (output : Option String) : String :=
  resolveOutput (filename ++ ".json") output

/-- Default destination in the text-to-binary direction (line 63):
`filename.replace(".json", "")`. -/
def deriveFromJsonPath (filename : String) (output : Option String) : String :=
  resolveOutput (pyRemoveJson filename) output

/-- Transcription of `main` (lines 13-66): flag conflict check, input checks, then the two
independent direction tests, each running its pipeline.  The second test
is reached only when the first pipeline, if run, returned normally, since
`exit` or an exception ends the process. -/
def main (env : Env) (req : ConversionRequest) (st : St) : St × Option Term :=
  if req.to_json && req.from_json then
    ({ st with log := st.log ++ [Msg.usageError] }, some (Term.exitc 1))
  else if !(pathExists st.fs req.filename) then
    ({ st with log := st.log ++ [Msg.notExist req.filename] },
     some (Term.exitc 1))
  else if !(pathIsFile st.fs req.filename) then
    ({ st with log := st.log ++ [Msg.notFile req.filename] },
     some (Term.exitc 1))
  else
    let step1 :=
      if req.to_json || pyEndsWith req.filename ".sav" then
        convert_sav_to_json env req.filename
          (deriveToJsonPath req.filename req.output) req.force req.minify_json
          st
      else (st, none)
    match step1 with
    | (st1, some t) => (st1, some t)
    | (st1, none) =>
      if req.from_json || pyEndsWith req.filename ".json" then
        convert_json_to_sav env req.filename
          (deriveFromJsonPath req.filename req.output) req.force st1
      else (st1, none)

/-- The spec's closed enumeration of save variants. -/
inductive VariantTag where
  | Standard
  | WorldOrLocal
deriving DecidableEq, Repr

/-- The save-variant classifier as the spec describes it: a pure, total
function of the save-game class name. -/
def classify (class_name : String) : VariantTag :=
  if pyIn "Pal.PalWorldSaveGame" class_name
      || pyIn "Pal.PalLocalWorldSaveGame" class_name then
    VariantTag.WorldOrLocal
  else
    VariantTag.Standard

/-- The one-byte container discriminator attached to each variant. -/
def discriminator : VariantTag → Nat
  | VariantTag.Standard => 0x31
  | VariantTag.WorldOrLocal => 0x32

/-- Concrete environment in which every delegated call succeeds; used to
evaluate the embedded script on concrete inputs. -/
def envOk : Env where
  decompress := fun _ => some (0, 0)
  gvasRead := fun _ => some ⟨⟨"Other.Save"⟩, 0⟩
  gvasDump := fun _ => 0
  jsonDumpText := fun _ minify => if minify then "min" else "full"
  jsonLoad := fun _ => some 0
  gvasLoad := fun _ => some ⟨⟨"Pal.PalWorldSaveGame"⟩, 1⟩
  gvasWrite := fun _ => some 7
  compress := fun raw ty => [raw, ty]

/-- Environment whose decompression step always fails. -/
def envBadDecompress : Env := { envOk with decompress := fun _ => none }

/-- State holding a single regular file named `profile.json`. -/
def stProfile : St where
  fs := [("profile.json", Entry.file (Data.txt "obj"))]
  replies := []
  prompts := 0
  log := []

/-- Request `--to-json profile.json`. -/
def reqToJsonProfile : ConversionRequest where
  filename := "profile.json"
  to_json := true
  from_json := false
  output := none
  force := false
  minify_json := false

/-- State holding a single regular file named `data.txt`. -/
def stData : St where
  fs := [("data.txt", Entry.file (Data.bin [0]))]
  replies := []
  prompts := 0
  log := []

/-- Request `data.txt` with no flags at all. -/
def reqNoFlags : ConversionRequest where
  filename := "data.txt"
  to_json := false
  from_json := false
  output := none
  force := false
  minify_json := false

/-- Request `--to-json --from-json x`. -/
def reqBothFlags : ConversionRequest where
  filename := "x"
  to_json := true
  from_json := true
  output := none
  force := false
  minify_json := false

/-- Request `--from-json x.json`. -/
def reqFromJson : ConversionRequest where
  filename := "x.json"
  to_json := false
  from_json := true
  output := none
  force := false
  minify_json := false

/-- State with an existing destination `out.json` holding sentinel content
and an input stream answering `maybe`, then `N`. -/
def stPromptN : St where
  fs := [("in.sav", Entry.file (Data.bin [1])),
         ("out.json", Entry.file (Data.txt "old"))]
  replies := ["maybe", "N"]
  prompts := 0
  log := []

/-- State holding the inputs `in.sav` and `in.json`. -/
def stIn : St where
  fs := [("in.sav", Entry.file (Data.bin [1, 2])),
         ("in.json", Entry.file (Data.txt "obj"))]
  replies := []
  prompts := 0
  log := []

/-- State holding a single text file `in.json`. -/
def stInJson : St where
  fs := [("in.json", Entry.file (Data.txt "obj"))]
  replies := []
  prompts := 0
  log := []

/-- State holding a single text file `x.json`. -/
def stXJson : St where
  fs := [("x.json", Entry.file (Data.txt "obj"))]
  replies := []
  prompts := 0
  log := []


/-- Correctness of the boolean substring test with respect to `List.IsInfix`. -/
theorem listContains_iff (s pat : List Char) :
    listContains s pat = true ↔ pat <:+: s := by
  induction s with
  | nil => simp [listContains, List.isEmpty_iff, List.infix_nil]
  | cons c cs ih =>
    simp [listContains, Bool.or_eq_true, List.isPrefixOf_iff_prefix, ih,
      List.infix_cons_iff]

/-- Correctness of `pyIn` with respect to `List.IsInfix`. -/
theorem pyIn_iff (sub s : String) :
    pyIn sub s = true ↔ sub.toList <:+: s.toList :=
  listContains_iff _ _

/-- On a reply stream of invalid replies followed by a valid one, the
prompt loop consumes exactly the invalid prefix and the valid reply,
issuing one prompt per consumed reply. -/
theorem confirm_prompt_valid (junk : List String) (r : String)
    (rest : List String)
    (hj : ∀ x ∈ junk, pyCasefold x ≠ "y" ∧ pyCasefold x ≠ "n")
    (hr : pyCasefold r = "y" ∨ pyCasefold r = "n") :
    confirm_prompt (junk ++ r :: rest) =
      some (decide (pyCasefold r = "y"), rest, junk.length + 1) := by
  induction junk with
  | nil =>
    rcases hr with h | h <;> simp [confirm_prompt, h]
  | cons x junk ih =>
    have hx := hj x (by simp)
    have ih' := ih (fun y hy => hj y (by simp [hy]))
    simp [confirm_prompt, hx.1, hx.2, ih']

/-- The overwrite guard never touches the filesystem. -/
theorem overwriteGuard_fs (op : String) (force : Bool) (st st' : St)
    (t : Option Term) (h : overwriteGuard op force st = (st', t)) :
    st'.fs = st.fs := by
  unfold overwriteGuard at h
  dsimp only at h
  split at h
  · split at h
    · cases h; rfl
    · split at h
      · cases h; rfl
      · split at h <;> cases h <;> rfl
  · cases h; rfl

/-- The overwrite guard only appends to the log. -/
theorem overwriteGuard_log (op : String) (force : Bool) (st st' : St)
    (t : Option Term) (h : overwriteGuard op force st = (st', t)) :
    st.log <+: st'.log := by
  unfold overwriteGuard at h
  dsimp only at h
  split at h
  · split at h
    · cases h; exact List.prefix_append _ _
    · split at h
      · cases h; exact List.prefix_append _ _
      · split at h <;> cases h <;> exact List.prefix_append _ _
  · cases h; exact List.prefix_rfl

/-- When the destination does not exist, the guard is silent. -/
theorem overwriteGuard_absent (op : String) (force : Bool) (st : St)
    (h : pathExists st.fs op = false) :
    overwriteGuard op force st = (st, none) := by
  unfold overwriteGuard
  simp [h]

/-- When the destination exists and force is set, the guard warns and
proceeds without prompting. -/
theorem overwriteGuard_force (op : String) (st : St)
    (h : pathExists st.fs op = true) :
    overwriteGuard op true st =
      ({ st with log := st.log ++ [Msg.overwriteWarn op] }, none) := by
  unfold overwriteGuard
  simp [h]

/-- When the destination exists, force is unset and the prompt loop
answers no, the guard exits with code 1. -/
theorem overwriteGuard_decline (op : String) (st : St) (rem : List String)
    (k : Nat) (h : pathExists st.fs op = true)
    (hc : confirm_prompt st.replies = some (false, rem, k)) :
    overwriteGuard op false st =
      ({ st with log := st.log ++ [Msg.overwriteWarn op],
                 replies := rem, prompts := st.prompts + k },
       some (Term.exitc 1)) := by
  unfold overwriteGuard
  simp [h, hc]

/-- When the destination exists, force is unset and the prompt loop
answers yes, the guard proceeds. -/
theorem overwriteGuard_accept (op : String) (st : St) (rem : List String)
    (k : Nat) (h : pathExists st.fs op = true)
    (hc : confirm_prompt st.replies = some (true, rem, k)) :
    overwriteGuard op false st =
      ({ st with log := st.log ++ [Msg.overwriteWarn op],
                 replies := rem, prompts := st.prompts + k },
       none) := by
  unfold overwriteGuard
  simp [h, hc]


/-- The binary-to-text pipeline only appends to the log. -/
theorem convert_sav_to_json_log (env : Env) (fn op : String)
    (force minify : Bool) (st st' : St) (t : Option Term)
    (h : convert_sav_to_json env fn op force minify st = (st', t)) :
    st.log <+: st'.log := by
  unfold convert_sav_to_json at h
  dsimp only at h
  split at h
  case _ st1 t' heq =>
    cases h
    have := overwriteGuard_log _ _ _ _ _ heq
    exact List.prefix_append _ _ |>.trans this
  case _ st1 heq =>
    have hg := overwriteGuard_log _ _ _ _ _ heq
    have hpre : st.log <+: st1.log ++ [Msg.decompressing] :=
      ((List.prefix_append _ _).trans hg).trans (List.prefix_append _ _)
    split at h
    · cases h; exact hpre
    · split at h
      · cases h; exact hpre
      · split at h
        · cases h
          exact hpre.trans (List.prefix_append _ _)
        · cases h
          exact (hpre.trans (List.prefix_append _ _)).trans
            (List.prefix_append _ _)

/-- A binary-to-text run that returns normally has logged its write. -/
theorem convert_sav_to_json_none (env : Env) (fn op : String)
    (force minify : Bool) (st st' : St)
    (h : convert_sav_to_json env fn op force minify st = (st', none)) :
    Msg.writingJson op ∈ st'.log := by
  unfold convert_sav_to_json at h
  dsimp only at h
  split at h
  case _ st1 t' heq => cases h
  case _ st1 heq =>
    split at h
    · cases h
    · split at h
      · cases h
      · split at h
        · cases h
        · cases h; simp

/-- A binary-to-text run that terminates early leaves the filesystem
untouched. -/
theorem convert_sav_to_json_some_fs (env : Env) (fn op : String)
    (force minify : Bool) (st st' : St) (t : Term)
    (h : convert_sav_to_json env fn op force minify st = (st', some t)) :
    st'.fs = st.fs := by
  unfold convert_sav_to_json at h
  dsimp only at h
  split at h
  case _ st1 t' heq =>
    cases h
    have hg := overwriteGuard_fs _ _ _ _ _ heq
    exact hg
  case _ st1 heq =>
    have hg := overwriteGuard_fs _ _ _ _ _ heq
    split at h
    · cases h; exact hg
    · split at h
      · cases h; exact hg
      · split at h
        · cases h; exact hg
        · cases h

/-- The text-to-binary pipeline only appends to the log. -/
theorem convert_json_to_sav_log (env : Env) (fn op : String)
    (force : Bool) (st st' : St) (t : Option Term)
    (h : convert_json_to_sav env fn op force st = (st', t)) :
    st.log <+: st'.log := by
  unfold convert_json_to_sav at h
  dsimp only at h
  split at h
  case _ st1 t' heq =>
    cases h
    have hg := overwriteGuard_log _ _ _ _ _ heq
    exact List.prefix_append _ _ |>.trans hg
  case _ st1 heq =>
    have hg := overwriteGuard_log _ _ _ _ _ heq
    have hpre : st.log <+: st1.log ++ [Msg.loadingJson fn] :=
      ((List.prefix_append _ _).trans hg).trans (List.prefix_append _ _)
    split at h
    · cases h; exact hpre
    · split at h
      · cases h; exact hpre
      · split at h
        · cases h; exact hpre
        · split at h
          · cases h
            exact hpre.trans (List.prefix_append _ _)
          · cases h
            exact (hpre.trans (List.prefix_append _ _)).trans
              (List.prefix_append _ _)

/-- A text-to-binary run that returns normally has logged its write. -/
theorem convert_json_to_sav_none (env : Env) (fn op : String)
    (force : Bool) (st st' : St)
    (h : convert_json_to_sav env fn op force st = (st', none)) :
    Msg.writingSav op ∈ st'.log := by
  unfold convert_json_to_sav at h
  dsimp only at h
  split at h
  case _ st1 t' heq => cases h
  case _ st1 heq =>
    split at h
    · cases h
    · split at h
      · cases h
      · split at h
        · cases h
        · split at h
          · cases h
          · cases h; simp

/-- A text-to-binary run that terminates early leaves the filesystem
untouched. -/
theorem convert_json_to_sav_some_fs (env : Env) (fn op : String)
    (force : Bool) (st st' : St) (t : Term)
    (h : convert_json_to_sav env fn op force st = (st', some t)) :
    st'.fs = st.fs := by
  unfold convert_json_to_sav at h
  dsimp only at h
  split at h
  case _ st1 t' heq =>
    cases h
    have hg := overwriteGuard_fs _ _ _ _ _ heq
    exact hg
  case _ st1 heq =>
    have hg := overwriteGuard_fs _ _ _ _ _ heq
    split at h
    · cases h; exact hg
    · split at h
      · cases h; exact hg
      · split at h
        · cases h; exact hg
        · split at h
          · cases h; exact hg
          · cases h

/-- Strings without an occurrence of `".json"` are left unchanged by the
removal function. -/
theorem pyRemoveJsonList_no_occurrence (l : List Char)
    (h : ¬ jsonPat <:+: l) : pyRemoveJsonList l = l := by
  induction l using pyRemoveJsonList.induct with
  | case1 rest _ =>
    exact absurd ⟨[], rest, by simp [jsonPat]⟩ h
  | case2 c cs h1 ih =>
    rw [List.infix_cons_iff] at h
    push_neg at h
    rw [pyRemoveJsonList, ih h.2]
    exact h1
  | case3 => rfl


/-- Claim C1 (refuted by the code; the run is evaluated at the failing
input): for the request `--to-json profile.json` on an existing regular
file, with delegated collaborators that succeed, `main` starts and
completes BOTH pipelines in the same invocation — it converts
`profile.json` to JSON at `profile.json.json` and also converts
`profile.json` to SAV at `profile` — because lines 54 and 61 of the
source test the direction flag and the filename suffix independently.
The claim says only the flagged pipeline may run. -/
theorem to_json_flag_still_runs_both_pipelines :
    Msg.convertToJsonStart "profile.json" "profile.json.json" ∈
      (SaveConverter.main envOk reqToJsonProfile stProfile).1.log ∧
    Msg.convertToSavStart "profile.json" "profile" ∈
      (SaveConverter.main envOk reqToJsonProfile stProfile).1.log ∧
    Msg.writingJson "profile.json.json" ∈
      (SaveConverter.main envOk reqToJsonProfile stProfile).1.log ∧
    Msg.writingSav "profile" ∈
      (SaveConverter.main envOk reqToJsonProfile stProfile).1.log := by
  rw [show (SaveConverter.main envOk reqToJsonProfile stProfile).1.log =
    [Msg.convertToJsonStart "profile.json" "profile.json.json",
     Msg.decompressing, Msg.loadingGvas, Msg.writingJson "profile.json.json",
     Msg.convertToSavStart "profile.json" "profile",
     Msg.loadingJson "profile.json", Msg.compressing,
     Msg.writingSav "profile"] from rfl]
  refine ⟨by simp, by simp, by simp, by simp⟩

/-- Claim C2, counterexample: the text-to-binary default output path does
not remove exactly one occurrence of `".json"` — on `"a.json.json"` the
code removes both occurrences, yielding `"a"` instead of `"a.json"`; and
an explicitly supplied empty override is not used verbatim but replaced
by the default. -/
theorem output_path_removes_all_json_occurrences_ce :
    deriveFromJsonPath "a.json.json" none = "a" ∧ ("a" : String) ≠ "a.json" ∧
    deriveFromJsonPath "b" (some "") = "b" ∧ ("b" : String) ≠ "" := by
  refine ⟨rfl, by decide, rfl, by decide⟩

/-- Claim C2, amended: with no override the Binary-to-Text direction
appends `".json"` to the full input name, and the Text-to-Binary
direction removes EVERY non-overlapping occurrence of `".json"` from the
input name, scanning left to right (`"profile.json"` maps to `"profile"`,
`"a.json.json"` to `"a"`, and a name without any occurrence is
unchanged); a nonempty override is used verbatim, while an empty override
falls back to the defaults. -/
theorem output_path_deriver_amended :
    (∀ f : String, deriveToJsonPath f none = f ++ ".json")
    ∧ (∀ f o : String, o ≠ "" →
        deriveToJsonPath f (some o) = o ∧ deriveFromJsonPath f (some o) = o)
    ∧ (∀ f : String, deriveToJsonPath f (some "") = deriveToJsonPath f none ∧
        deriveFromJsonPath f (some "") = deriveFromJsonPath f none)
    ∧ deriveFromJsonPath "profile.json" none = "profile"
    ∧ deriveFromJsonPath "a.json.json" none = "a"
    ∧ (∀ f : String, ¬ jsonPat <:+: f.toList → deriveFromJsonPath f none = f) := by
  refine ⟨fun f => rfl, fun f o ho => ?_, fun f => ⟨rfl, rfl⟩, rfl, rfl,
    fun f hf => ?_⟩
  · constructor <;> simp [deriveToJsonPath, deriveFromJsonPath, resolveOutput, ho]
  · cases f with
    | mk data =>
      show String.mk (pyRemoveJsonList data) = String.mk data
      rw [pyRemoveJsonList_no_occurrence data hf]

/-- Claim C2, witness: the amended deriver theorem evaluated at concrete
inputs — a nonempty override is used verbatim, and a name without a
`".json"` occurrence is unchanged. -/
theorem output_path_deriver_amended_witness :
    (deriveToJsonPath "save.sav" (some "out") = "out" ∧
     deriveFromJsonPath "save.sav" (some "out") = "out") ∧
    deriveFromJsonPath "plain.sav" none = "plain.sav" :=
  ⟨output_path_deriver_amended.2.1 "save.sav" "out" (by decide),
   output_path_deriver_amended.2.2.2.2.2 "plain.sav" (by decide)⟩

/-- Claim C3, counterexample: a run with no direction flag on an existing
regular file whose name ends in neither `".sav"` nor `".json"` returns
from `main` untouched, so the process exits with code 0 although nothing
was written — the claim says every non-writing run exits non-zero. -/
theorem silent_noop_exits_zero_ce :
    SaveConverter.main envOk reqNoFlags stData = (stData, none) ∧
    processExit none = some 0 :=
  ⟨rfl, rfl⟩

/-- Claim C3, amended: exit code 0 occurs only when every selected
pipeline completed its write, or when no pipeline was selected at all
(the silent no-op case, which leaves the state unchanged); every other
terminating run (usage error, missing or non-file input, declined
overwrite, delegated failure) ends with `exit(1)` or an uncaught
exception and hence a non-zero exit status. -/
theorem exit_zero_implies_write_or_noop (env : Env) (req : ConversionRequest)
    (st st' : St) (h : SaveConverter.main env req st = (st', none)) :
    ((req.to_json || pyEndsWith req.filename ".sav") = true →
      Msg.writingJson (deriveToJsonPath req.filename req.output) ∈ st'.log)
    ∧ ((req.from_json || pyEndsWith req.filename ".json") = true →
      Msg.writingSav (deriveFromJsonPath req.filename req.output) ∈ st'.log)
    ∧ ((req.to_json || pyEndsWith req.filename ".sav") = false →
       (req.from_json || pyEndsWith req.filename ".json") = false →
       st' = st) := by
  unfold main at h
  split at h
  · simp at h
  · split at h
    · simp at h
    · split at h
      · simp at h
      · dsimp only at h
        split at h
        case _ st1 t' heq => simp at h
        case _ st1 heq =>
          split at heq
          case isTrue hc1 =>
            have hw1 : Msg.writingJson (deriveToJsonPath req.filename req.output)
                ∈ st1.log := convert_sav_to_json_none _ _ _ _ _ _ _ heq
            split at h
            case isTrue hc2 =>
              refine ⟨fun _ => ?_, fun _ => ?_,
                fun hf1 _ => absurd hc1 (by simp [hf1])⟩
              · exact (convert_json_to_sav_log _ _ _ _ _ _ _ h).subset hw1
              · exact convert_json_to_sav_none _ _ _ _ _ _ h
            case isFalse hc2 =>
              cases h
              exact ⟨fun _ => hw1, fun hc => absurd hc hc2,
                fun hf1 _ => absurd hc1 (by simp [hf1])⟩
          case isFalse hc1 =>
            cases heq
            split at h
            case isTrue hc2 =>
              refine ⟨fun hc => absurd hc hc1, fun _ => ?_,
                fun _ hf2 => absurd hc2 (by simp [hf2])⟩
              exact convert_json_to_sav_none _ _ _ _ _ _ h
            case isFalse hc2 =>
              cases h
              exact ⟨fun hc => absurd hc hc1, fun hc => absurd hc hc2,
                fun _ _ => rfl⟩

/-- Claim C3, witness: the amended theorem applied to the concrete
successful run `--from-json x.json`, whose exit-0 termination indeed
logged the SAV write. -/
theorem exit_zero_implies_write_or_noop_witness :
    Msg.writingSav "x" ∈
      (SaveConverter.main envOk reqFromJson stXJson).1.log := by
  have h := exit_zero_implies_write_or_noop envOk reqFromJson stXJson
    ((SaveConverter.main envOk reqFromJson stXJson).1) rfl
  exact h.2.1 rfl


/-- Claim C4: when both `--to-json` and `--from-json` are set, `main`
fails immediately with the usage diagnostic and `exit(1)`, for every
filename and every filesystem (so regardless of whether the input
exists); the resulting state differs from the initial one only by the
diagnostic message, so nothing is read and nothing is written. -/
theorem conflicting_flags_usage_error (env : Env) (req : ConversionRequest)
    (st : St) (h1 : req.to_json = true) (h2 : req.from_json = true) :
    SaveConverter.main env req st =
      ({ st with log := st.log ++ [Msg.usageError] }, some (Term.exitc 1)) ∧
    processExit (some (Term.exitc 1)) = some 1 := by
  unfold main
  rw [h1, h2]
  exact ⟨rfl, rfl⟩

/-- Claim C4, witness: the conflicting-flags theorem evaluated at a
request whose input file does not even exist. -/
theorem conflicting_flags_usage_error_witness :
    SaveConverter.main envOk reqBothFlags stData =
      ({ stData with log := stData.log ++ [Msg.usageError] },
       some (Term.exitc 1)) ∧
    processExit (some (Term.exitc 1)) = some 1 :=
  conflicting_flags_usage_error envOk reqBothFlags stData rfl rfl

/-- Claim C5: when the destination exists and force is unset, the
binary-to-text pipeline repeats the prompt once per reply until a reply
case-folds to `"y"` or `"n"`; a reply folding to `"n"` makes the process
exit with code 1 with the filesystem (hence the destination's bytes)
exactly as before, the invalid replies and the deciding one consumed and
one prompt issued per consumed reply, while a reply folding to `"y"` lets
the pipeline proceed past the guard. -/
theorem overwrite_guard_prompt_loop (env : Env) (fn op : String)
    (minify : Bool) (st : St) (junk : List String) (r : String)
    (rest : List String)
    (hex : pathExists st.fs op = true)
    (hj : ∀ x ∈ junk, pyCasefold x ≠ "y" ∧ pyCasefold x ≠ "n")
    (hrep : st.replies = junk ++ r :: rest) :
    (pyCasefold r = "n" →
      convert_sav_to_json env fn op false minify st =
        ({ st with
            log := st.log ++ [Msg.convertToJsonStart fn op,
                              Msg.overwriteWarn op],
            replies := rest, prompts := st.prompts + (junk.length + 1) },
         some (Term.exitc 1)))
    ∧ (pyCasefold r = "y" → ∀ st' t,
        convert_sav_to_json env fn op false minify st = (st', t) →
        Msg.decompressing ∈ st'.log ∧ st'.replies = rest ∧
        st'.prompts = st.prompts + (junk.length + 1)) := by
  constructor
  · intro hn
    have hcp : confirm_prompt st.replies =
        some (false, rest, junk.length + 1) := by
      rw [hrep, confirm_prompt_valid junk r rest hj (Or.inr hn), hn]
      simp
    unfold convert_sav_to_json
    dsimp only
    rw [overwriteGuard_decline op
      { st with log := st.log ++ [Msg.convertToJsonStart fn op] }
      rest (junk.length + 1) hex hcp]
    simp [List.append_assoc]
  · intro hy st' t hconv
    have hcp : confirm_prompt st.replies =
        some (true, rest, junk.length + 1) := by
      rw [hrep, confirm_prompt_valid junk r rest hj (Or.inl hy), hy]
      simp
    unfold convert_sav_to_json at hconv
    dsimp only at hconv
    rw [overwriteGuard_accept op
      { st with log := st.log ++ [Msg.convertToJsonStart fn op] }
      rest (junk.length + 1) hex hcp] at hconv
    dsimp only at hconv
    split at hconv
    · cases hconv; refine ⟨by simp, rfl, rfl⟩
    · split at hconv
      · cases hconv; exact ⟨by simp, rfl, rfl⟩
      · split at hconv
        · cases hconv; exact ⟨by simp, rfl, rfl⟩
        · cases hconv; exact ⟨by simp, rfl, rfl⟩

/-- Claim C5, witness: with destination `out.json` existing, replies
`maybe` then `N` (exercising case folding), the run exits with code 1,
the filesystem keeps its sentinel content, two prompts were issued and
the reply stream is exhausted. -/
theorem overwrite_guard_prompt_loop_witness :
    convert_sav_to_json envOk "in.sav" "out.json" false false stPromptN =
      ({ stPromptN with
          log := [Msg.convertToJsonStart "in.sav" "out.json",
                  Msg.overwriteWarn "out.json"],
          replies := [], prompts := 2 },
       some (Term.exitc 1)) := by
  have h := (overwrite_guard_prompt_loop envOk "in.sav" "out.json" false
    stPromptN ["maybe"] "N" [] rfl (by decide) rfl).1 rfl
  exact h

/-- Claim C6: whenever either pipeline terminates by raising (which in
this embedding happens exactly when a read or a delegated step fails),
the filesystem — and with it the destination's prior contents or its
non-existence — is preserved and the process exit status is 1; moreover a
failing decompression or parse in the binary-to-text pipeline, and a
failing reconstruction or re-serialization in the text-to-binary
pipeline, do terminate the run by raising. -/
theorem delegated_failure_preserves_destination (env : Env) (fn op : String)
    (force minify : Bool) (st st' : St) (d : Data) (m raw j : Nat)
    (g : GvasFile) :
    (convert_sav_to_json env fn op force minify st = (st', some Term.exn) →
       st'.fs = st.fs ∧ processExit (some Term.exn) = some 1)
    ∧ (convert_json_to_sav env fn op force st = (st', some Term.exn) →
       st'.fs = st.fs ∧ processExit (some Term.exn) = some 1)
    ∧ (pathExists st.fs op = false → readFile st.fs fn = some d →
       env.decompress (dataBytes d) = none →
       (convert_sav_to_json env fn op force minify st).2 = some Term.exn)
    ∧ (pathExists st.fs op = false → readFile st.fs fn = some d →
       env.decompress (dataBytes d) = some (raw, m) → env.gvasRead raw = none →
       (convert_sav_to_json env fn op force minify st).2 = some Term.exn)
    ∧ (pathExists st.fs op = false → readFile st.fs fn = some d →
       env.jsonLoad d = some j → env.gvasLoad j = none →
       (convert_json_to_sav env fn op force st).2 = some Term.exn)
    ∧ (pathExists st.fs op = false → readFile st.fs fn = some d →
       env.jsonLoad d = some j → env.gvasLoad j = some g →
       env.gvasWrite g = none →
       (convert_json_to_sav env fn op force st).2 = some Term.exn) := by
  refine ⟨fun h => ⟨convert_sav_to_json_some_fs _ _ _ _ _ _ _ _ h, rfl⟩,
    fun h => ⟨convert_json_to_sav_some_fs _ _ _ _ _ _ _ h, rfl⟩,
    fun hpe hrd hdec => ?_, fun hpe hrd hdec hgr => ?_,
    fun hpe hrd hjl hgl => ?_, fun hpe hrd hjl hgl hgw => ?_⟩
  · unfold convert_sav_to_json
    dsimp only
    rw [overwriteGuard_absent op force
      { st with log := st.log ++ [Msg.convertToJsonStart fn op] } hpe]
    dsimp only
    rw [hrd]
    dsimp only
    rw [hdec]
  · unfold convert_sav_to_json
    dsimp only
    rw [overwriteGuard_absent op force
      { st with log := st.log ++ [Msg.convertToJsonStart fn op] } hpe]
    dsimp only
    rw [hrd]
    dsimp only
    rw [hdec]
    dsimp only
    rw [hgr]
  · unfold convert_json_to_sav
    dsimp only
    rw [overwriteGuard_absent op force
      { st with log := st.log ++ [Msg.convertToSavStart fn op] } hpe]
    dsimp only
    rw [hrd]
    dsimp only
    rw [hjl]
    dsimp only
    rw [hgl]
  · unfold convert_json_to_sav
    dsimp only
    rw [overwriteGuard_absent op force
      { st with log := st.log ++ [Msg.convertToSavStart fn op] } hpe]
    dsimp only
    rw [hrd]
    dsimp only
    rw [hjl]
    dsimp only
    rw [hgl]
    dsimp only
    rw [hgw]

/-- Claim C6, witness: with an environment whose decompression always
fails, the binary-to-text run on `in.sav` raises and the filesystem is
unchanged. -/
theorem delegated_failure_preserves_destination_witness :
    (convert_sav_to_json envBadDecompress "in.sav" "out" false false stIn).2 =
      some Term.exn ∧
    (convert_sav_to_json envBadDecompress "in.sav" "out" false false
      stIn).1.fs = stIn.fs := by
  have h := delegated_failure_preserves_destination envBadDecompress "in.sav"
    "out" false false stIn
    ((convert_sav_to_json envBadDecompress "in.sav" "out" false false stIn).1)
    (Data.bin [1, 2]) 0 0 0 ⟨⟨""⟩, 0⟩
  have h3 := h.2.2.1 rfl rfl rfl
  have heq : convert_sav_to_json envBadDecompress "in.sav" "out" false false
      stIn =
      ((convert_sav_to_json envBadDecompress "in.sav" "out" false false
        stIn).1, some Term.exn) := by
    rw [← h3]
  exact ⟨h3, (h.1 heq).1⟩


/-- Claim C7: the save-variant classifier is a pure, total function of
the save-game class name (it is a Lean function, so totality is by
construction): it returns `WorldOrLocal` exactly when the class name
contains `"Pal.PalWorldSaveGame"` or `"Pal.PalLocalWorldSaveGame"` as a
substring; it agrees with the inline `save_type` test of the source
through `discriminator`; `"Pal.PalWorldSaveGame"` classifies as
`WorldOrLocal` and `"Other.Save"` as `Standard`. -/
theorem save_variant_classifier_spec :
    (∀ cn : String, classify cn = VariantTag.WorldOrLocal ↔
      ("Pal.PalWorldSaveGame".toList <:+: cn.toList ∨
       "Pal.PalLocalWorldSaveGame".toList <:+: cn.toList))
    ∧ (∀ cn : String, saveTypeOf cn = discriminator (classify cn))
    ∧ classify "Pal.PalWorldSaveGame" = VariantTag.WorldOrLocal
    ∧ classify "Other.Save" = VariantTag.Standard := by
  refine ⟨fun cn => ?_, fun cn => ?_, by decide, by decide⟩
  · unfold classify
    split
    case isTrue h =>
      rw [Bool.or_eq_true, pyIn_iff, pyIn_iff] at h
      exact iff_of_true rfl h
    case isFalse h =>
      rw [Bool.or_eq_true, pyIn_iff, pyIn_iff] at h
      exact iff_of_false (by decide) h
  · unfold saveTypeOf classify
    split <;> rfl

/-- Claim C8: when the destination exists and force is set, both
pipelines proceed without issuing any prompt or consuming any reply, the
overwrite warning is logged, the run continues past the guard, and if it
returns normally the write to the destination is logged. -/
theorem force_flag_skips_prompt :
    (∀ env fn op minify st st' t, pathExists st.fs op = true →
      convert_sav_to_json env fn op true minify st = (st', t) →
      st'.prompts = st.prompts ∧ st'.replies = st.replies ∧
      Msg.overwriteWarn op ∈ st'.log ∧ Msg.decompressing ∈ st'.log ∧
      (t = none → Msg.writingJson op ∈ st'.log))
    ∧ (∀ env fn op st st' t, pathExists st.fs op = true →
      convert_json_to_sav env fn op true st = (st', t) →
      st'.prompts = st.prompts ∧ st'.replies = st.replies ∧
      Msg.overwriteWarn op ∈ st'.log ∧ Msg.loadingJson fn ∈ st'.log ∧
      (t = none → Msg.writingSav op ∈ st'.log)) := by
  constructor
  · intro env fn op minify st st' t hex hconv
    unfold convert_sav_to_json at hconv
    dsimp only at hconv
    rw [overwriteGuard_force op
      { st with log := st.log ++ [Msg.convertToJsonStart fn op] } hex]
      at hconv
    dsimp only at hconv
    split at hconv
    · cases hconv; exact ⟨rfl, rfl, by simp, by simp, by simp⟩
    · split at hconv
      · cases hconv; exact ⟨rfl, rfl, by simp, by simp, by simp⟩
      · split at hconv
        · cases hconv; exact ⟨rfl, rfl, by simp, by simp, by simp⟩
        · cases hconv; exact ⟨rfl, rfl, by simp, by simp, by simp⟩
  · intro env fn op st st' t hex hconv
    unfold convert_json_to_sav at hconv
    dsimp only at hconv
    rw [overwriteGuard_force op
      { st with log := st.log ++ [Msg.convertToSavStart fn op] } hex]
      at hconv
    dsimp only at hconv
    split at hconv
    · cases hconv; exact ⟨rfl, rfl, by simp, by simp, by simp⟩
    · split at hconv
      · cases hconv; exact ⟨rfl, rfl, by simp, by simp, by simp⟩
      · split at hconv
        · cases hconv; exact ⟨rfl, rfl, by simp, by simp, by simp⟩
        · split at hconv
          · cases hconv; exact ⟨rfl, rfl, by simp, by simp, by simp⟩
          · cases hconv; exact ⟨rfl, rfl, by simp, by simp, by simp⟩

/-- Claim C8, witness: with destination `out.json` existing, force set
and a pending reply stream, the run issues no prompt, consumes no reply,
warns, and completes its write. -/
theorem force_flag_skips_prompt_witness :
    (convert_sav_to_json envOk "in.sav" "out.json" true false
      stPromptN).1.prompts = stPromptN.prompts ∧
    (convert_sav_to_json envOk "in.sav" "out.json" true false
      stPromptN).1.replies = stPromptN.replies ∧
    Msg.overwriteWarn "out.json" ∈
      (convert_sav_to_json envOk "in.sav" "out.json" true false
        stPromptN).1.log ∧
    Msg.writingJson "out.json" ∈
      (convert_sav_to_json envOk "in.sav" "out.json" true false
        stPromptN).1.log := by
  have h := force_flag_skips_prompt.1 envOk "in.sav" "out.json" false stPromptN
    ((convert_sav_to_json envOk "in.sav" "out.json" true false stPromptN).1)
    ((convert_sav_to_json envOk "in.sav" "out.json" true false stPromptN).2)
    rfl rfl
  exact ⟨h.1, h.2.1, h.2.2.1, h.2.2.2.2 rfl⟩

/-- Claim C9: in a normally completing text-to-binary run, the
destination receives exactly the compressor's output for the rebuilt
document's raw payload and the discriminator computed from its class
name; that discriminator is `0x32` exactly on `WorldOrLocal`
classifications, `0x31` exactly on `Standard` ones, and never any other
value. -/
theorem container_discriminator_values (env : Env) (fn op : String)
    (force : Bool) (st st' : St) (d : Data) (j raw : Nat) (g : GvasFile)
    (h1 : readFile st.fs fn = some d) (h2 : env.jsonLoad d = some j)
    (h3 : env.gvasLoad j = some g) (h4 : env.gvasWrite g = some raw)
    (h5 : convert_json_to_sav env fn op force st = (st', none)) :
    readFile st'.fs op = some (Data.bin
      (env.compress raw (saveTypeOf g.header.save_game_class_name)))
    ∧ (∀ cn : String,
        classify cn = VariantTag.WorldOrLocal ↔ saveTypeOf cn = 0x32)
    ∧ (∀ cn : String,
        classify cn = VariantTag.Standard ↔ saveTypeOf cn = 0x31)
    ∧ (∀ cn : String, saveTypeOf cn = 0x31 ∨ saveTypeOf cn = 0x32) := by
  refine ⟨?_, fun cn => ?_, fun cn => ?_, fun cn => ?_⟩
  · unfold convert_json_to_sav at h5
    dsimp only at h5
    split at h5
    case _ st1 t' heq => simp at h5
    case _ st1 heq =>
      have hfs := overwriteGuard_fs _ _ _ _ _ heq
      rw [show ({ st with
          log := st.log ++ [Msg.convertToSavStart fn op] } : St).fs = st.fs
        from rfl] at hfs
      rw [hfs, h1] at h5
      dsimp only at h5
      rw [h2] at h5
      dsimp only at h5
      rw [h3] at h5
      dsimp only at h5
      rw [h4] at h5
      dsimp only at h5
      cases h5
      simp [readFile, writeFile, List.lookup]
  · unfold classify saveTypeOf
    split
    · simp
    · simp
  · unfold classify saveTypeOf
    split
    · simp
    · simp
  · unfold saveTypeOf
    split
    · exact Or.inr rfl
    · exact Or.inl rfl

/-- Claim C9, witness: the discriminator theorem evaluated on a concrete
run whose document classifies as `WorldOrLocal`; the destination holds
the compressed bytes with discriminator `0x32`. -/
theorem container_discriminator_values_witness :
    readFile
      (convert_json_to_sav envOk "in.json" "out.sav" false stInJson).1.fs
      "out.sav" = some (Data.bin [7, 0x32]) ∧
    saveTypeOf "Pal.PalWorldSaveGame" = 0x32 := by
  have h := container_discriminator_values envOk "in.json" "out.sav" false
    stInJson
    ((convert_json_to_sav envOk "in.json" "out.sav" false stInJson).1)
    (Data.txt "obj") 0 7 ⟨⟨"Pal.PalWorldSaveGame"⟩, 1⟩ rfl rfl rfl rfl rfl
  exact ⟨h.1, (h.2.1 "Pal.PalWorldSaveGame").mp (by decide)⟩

/-- Claim C10: the bytes a run writes in the text-to-binary direction are
independent of the minify flag: whenever the binary-to-text pipeline is
not selected (so only the text-to-binary pipeline, which takes no minify
argument, can run), two runs of `main` differing only in the minify flag
produce identical final states — in particular byte-identical destination
files — and identical terminations. -/
theorem minify_flag_independent_of_sav_output (env : Env)
    (req : ConversionRequest) (st : St) (b1 b2 : Bool)
    (h : (req.to_json || pyEndsWith req.filename ".sav") = false) :
    SaveConverter.main env { req with minify_json := b1 } st =
      SaveConverter.main env { req with minify_json := b2 } st := by
  cases req
  simp only [Bool.or_eq_false_iff] at h
  unfold main
  simp only [h.1, h.2, Bool.false_and, Bool.false_or, if_false,
    Bool.false_eq_true]

/-- Claim C10, witness: the two concrete runs of `--from-json x.json`
with and without `--minify-json` coincide. -/
theorem minify_flag_independent_of_sav_output_witness :
    SaveConverter.main envOk { reqFromJson with minify_json := true }
      stXJson =
    SaveConverter.main envOk { reqFromJson with minify_json := false }
      stXJson :=
  minify_flag_independent_of_sav_output envOk reqFromJson stXJson true false
    rfl

end SaveConverter
